import Mathlib

/-
Verification of the Architecture Agent service
(src/architecture_agent_project/app/main.py and app/models.py).

The development shallowly embeds the two core pieces of the program:
the rule-based diagram synthesis engine (generate_architecture_endpoint)
and the diagram store (save_architecture_endpoint /
get_architecture_endpoint), together with the pydantic data model from
app/models.py and its JSON serialization used by the store.
-/

namespace ArchAgent

/-
JSON values. The pydantic models carry open property bags typed
Optional Dict from str to Any; serialization through model_dump_json
restricts the values to JSON-representable ones, which this type
models. JSON numbers are modeled as integers; no claim inspects a
numeric payload.
-/
inductive JsonValue : Type where
  | null : JsonValue
  | boolVal : Bool → JsonValue
  | intVal : Int → JsonValue
  | str : String → JsonValue
  | arr : List JsonValue → JsonValue
  | obj : List (String × JsonValue) → JsonValue

/-- ArchitectureComponent from app/models.py: required id, name, type;
optional technology, description and an open property bag. -/
structure ArchitectureComponent : Type where
  id : String
  name : String
  type : String
  technology : Option String := none
  description : Option String := none
  properties : Option (List (String × JsonValue)) := none

/-- ArchitectureConnection from app/models.py: required id and the two
endpoint component ids; optional protocol, description, property bag. -/
structure ArchitectureConnection : Type where
  id : String
  source_component_id : String
  target_component_id : String
  protocol : Option String := none
  description : Option String := none
  properties : Option (List (String × JsonValue)) := none

/-- ArchitectureDiagram from app/models.py: required diagram_id and name,
optional description and metadata bag, component and connection lists
defaulting to empty. -/
structure ArchitectureDiagram : Type where
  diagram_id : String
  name : String
  description : Option String := none
  components : List ArchitectureComponent := []
  connections : List ArchitectureConnection := []
  metadata : Option (List (String × JsonValue)) := none

/-- ApiResponse from app/models.py. -/
structure ApiResponse : Type where
  message : String
  data : Option JsonValue := none
  success : Bool := true

/-- leadsWith needle hay is true when needle is an initial segment of hay. -/
def leadsWith : List Char → List Char → Bool
  | [], _ => true
  | _ :: _, [] => false
  | c :: cs, d :: ds => c == d && leadsWith cs ds

/-- charsContain hay needle is true when needle occurs as a contiguous
run inside hay. -/
def charsContain : List Char → List Char → Bool
  | [], needle => needle.isEmpty
  | h :: t, needle => leadsWith needle (h :: t) || charsContain t needle

/-- The lowercased character sequence of a string: prompt_lower of the
source, computed charwise; the trigger keywords it is matched against
are all ASCII. -/
def lowerChars (s : String) : List Char :=
  s.toList.map Char.toLower

/-- promptHas prompt needle models the Python substring test
needle in prompt_lower used by generate_architecture_endpoint. -/
def promptHas (prompt needle : String) : Bool :=
  charsContain (lowerChars prompt) needle.toList

/-
Identifier generation. The source calls uuid.uuid4() once per fresh
identifier; the spec treats the identifier generator as a leaf that
produces globally unique opaque strings. The embedding models each
uuid4() call by the index of the call inside one request, so distinct
calls yield distinct identifiers, as uniqueness of uuid4 guarantees.
-/

/-- Identifier of the n-th uuid call when used for a component. -/
def compId (n : Nat) : String := "comp_" ++ Nat.repr n

/-- Identifier of the n-th uuid call when used for a connection. -/
def connId (n : Nat) : String := "conn_" ++ Nat.repr n

/-- The Android client component appended by the android trigger. -/
def mkAndroidClient (id : String) : ArchitectureComponent :=
  { id := id, name := "Android Client", type := "MobileClient",
    technology := some "Android/Kotlin/Java",
    description := some "Native Android application interface." }

/-- The iOS client component appended by the ios trigger. -/
def mkIosClient (id : String) : ArchitectureComponent :=
  { id := id, name := "iOS Client", type := "MobileClient",
    technology := some "iOS/Swift",
    description := some "Native iOS application interface." }

/-- The web client component appended by the web or browser trigger. -/
def mkWebClient (id : String) : ArchitectureComponent :=
  { id := id, name := "Web Client", type := "WebClient",
    technology := some "React/Angular/Vue",
    description := some "Browser-based web application interface." }

/-- The API gateway component of the backend tier. -/
def mkApiGateway (id : String) : ArchitectureComponent :=
  { id := id, name := "API Gateway", type := "APIGateway",
    technology := some "e.g., Kong/NGINX/AWS API Gateway",
    description := some "Single entry point for all client requests." }

/-- The user service component of the backend tier. -/
def mkUserService (id : String) : ArchitectureComponent :=
  { id := id, name := "User Service", type := "Microservice",
    technology := some "e.g., Python/FastAPI",
    description := some "Manages user authentication, profiles, and settings." }

/-- The product service component of the backend tier. -/
def mkProductService (id : String) : ArchitectureComponent :=
  { id := id, name := "Product Service", type := "Microservice",
    technology := some "e.g., Node.js/Express",
    description := some "Manages product information or another specific domain." }

/-- The database component of the database tier. -/
def mkDatabase (id : String) : ArchitectureComponent :=
  { id := id, name := "Primary Database", type := "Database",
    technology := some "e.g., PostgreSQL/MongoDB/DynamoDB",
    description := some "Persistent storage for application data." }

/-- The fallback component created when no keyword matched. -/
def mkDefaultCore (id : String) : ArchitectureComponent :=
  { id := id, name := "Default Application Core", type := "Monolith",
    technology := some "Generic",
    description := some "Basic application component generated due to lack of specific keywords." }

/-- Connection constructor matching the ArchitectureConnection calls in
generate_architecture_endpoint: protocol and description always given. -/
def mkConnection (id src tgt protocol descr : String) : ArchitectureConnection :=
  { id := id, source_component_id := src, target_component_id := tgt,
    protocol := some protocol, description := some descr }

/-- The loop connecting every client component to the API gateway,
one fresh connection identifier per client, in client creation order. -/
def wireClients (gatewayId : String) : List String → Nat → List ArchitectureConnection × Nat
  | [], n => ([], n)
  | c :: cs, n =>
    let rest := wireClients gatewayId cs (n + 1)
    (mkConnection (connId n) c gatewayId "HTTPS"
        "Client communication to backend via API Gateway." :: rest.1,
     rest.2)

/-- The loop connecting every backend service to the database,
one fresh connection identifier per service, in service creation order. -/
def wireServices (dbId : String) : List String → Nat → List ArchitectureConnection × Nat
  | [], n => ([], n)
  | s :: ss, n =>
    let rest := wireServices dbId ss (n + 1)
    (mkConnection (connId n) s dbId "TCP/IP (specific to DB)"
        "Service connection to Database." :: rest.1,
     rest.2)

/-- The accumulation phase of generate_architecture_endpoint: the
component and connection lists built by the rule cascade before the
final ArchitectureDiagram record is assembled. The five Booleans are
the android, ios, web-or-browser, api-or-backend and
database-or-storage trigger results, which the source evaluates on the
unchanging lowercased prompt; nothing in the accumulation phase except
those five tests reads the prompt. Components, connections and
identifier allocations follow the statement order of the source
exactly. -/
def buildParts (hasAndroid hasIos hasWeb hasApi hasDb : Bool) :
    List ArchitectureComponent × List ArchitectureConnection :=
  let (comps1, clients1, n1) :=
    if hasAndroid then ([mkAndroidClient (compId 1)], [compId 1], 2)
    else (([] : List ArchitectureComponent), ([] : List String), 1)
  let (comps2, clients2, n2) :=
    if hasIos then (comps1 ++ [mkIosClient (compId n1)], clients1 ++ [compId n1], n1 + 1)
    else (comps1, clients1, n1)
  let (comps3, clients3, n3) :=
    if hasWeb then (comps2 ++ [mkWebClient (compId n2)], clients2 ++ [compId n2], n2 + 1)
    else (comps2, clients2, n2)
  let (comps4, conns4, gatewayId, backendIds, n4) :=
    if hasApi then
      (comps3 ++ [mkApiGateway (compId n3), mkUserService (compId (n3 + 1)),
                  mkProductService (compId (n3 + 3))],
       [mkConnection (connId (n3 + 2)) (compId n3) (compId (n3 + 1)) "HTTPS/REST"
          "Routes user-related requests to User Service.",
        mkConnection (connId (n3 + 4)) (compId n3) (compId (n3 + 3)) "HTTPS/REST"
          "Routes product-related requests to Product Service."],
       some (compId n3), [compId (n3 + 1), compId (n3 + 3)], n3 + 5)
    else (comps3, ([] : List ArchitectureConnection), (none : Option String),
          ([] : List String), n3)
  let (clientConns, n5) :=
    match gatewayId with
    | some gid => wireClients gid clients3 n4
    | none => (([] : List ArchitectureConnection), n4)
  let conns5 := conns4 ++ clientConns
  let (comps6, conns6, n6) :=
    if hasDb then
      let dbServiceConns := wireServices (compId n5) backendIds (n5 + 1)
      (comps4 ++ [mkDatabase (compId n5)], conns5 ++ dbServiceConns.1, dbServiceConns.2)
    else (comps4, conns5, n5)
  let (comps7, conns7, _n7) :=
    if comps6.isEmpty then
      if hasDb then
        (comps6 ++ [mkDefaultCore (compId n6), mkDatabase (compId (n6 + 1))],
         conns6 ++ [mkConnection (connId (n6 + 2)) (compId n6) (compId (n6 + 1))
            "TCP/IP (specific to DB)" "Default core connection to Database."],
         n6 + 3)
      else (comps6 ++ [mkDefaultCore (compId n6)], conns6, n6 + 1)
    else (comps6, conns6, n6)
  (comps7, conns7)

/-- The final return statement of generate_architecture_endpoint:
assemble the record from the accumulated lists, a fresh diagram
identifier allocated by the first uuid call of the request, the
truncated prompt in the name, and the metadata bag holding the
original prompt and the generator version. -/
def build (prompt : String) (hasAndroid hasIos hasWeb hasApi hasDb : Bool) :
    ArchitectureDiagram :=
  let parts := buildParts hasAndroid hasIos hasWeb hasApi hasDb
  { diagram_id := "arch_" ++ Nat.repr 0,
    name := "Generated Architecture for: " ++ prompt.take 50 ++ "...",
    description := some "This architecture was automatically generated based on the provided prompt.",
    components := parts.1,
    connections := parts.2,
    metadata := some [("prompt", JsonValue.str prompt),
                      ("generator_version", JsonValue.str "0.1.0")] }

/-- generate_architecture_endpoint from app/main.py: lowercase the
prompt, evaluate the keyword triggers, and run the rule cascade. -/
def synthesize (prompt : String) : ArchitectureDiagram :=
  build prompt
    (promptHas prompt "android")
    (promptHas prompt "ios")
    (promptHas prompt "web" || promptHas prompt "browser")
    (promptHas prompt "api" || promptHas prompt "backend")
    (promptHas prompt "database" || promptHas prompt "storage")

/-- The identifiers of a component list. -/
def idsOf (comps : List ArchitectureComponent) : List String :=
  comps.map (fun c => c.id)

/-- The list of component identifiers of a diagram. -/
def componentIds (d : ArchitectureDiagram) : List String :=
  idsOf d.components

/-- The name of the component of a list carrying a given identifier. -/
def nameOf (comps : List ArchitectureComponent) (cid : String) : Option String :=
  (comps.find? (fun c => c.id == cid)).map (fun c => c.name)

/-- The name of the component of a diagram carrying a given identifier. -/
def componentNameOf (d : ArchitectureDiagram) (cid : String) : Option String :=
  nameOf d.components cid

/-- Connections rendered as triples of source component name, target
component name and protocol, endpoint names resolved against a
component list. -/
def summaryOf (comps : List ArchitectureComponent) (conns : List ArchitectureConnection) :
    List (Option String × Option String × Option String) :=
  conns.map (fun c =>
    (nameOf comps c.source_component_id, nameOf comps c.target_component_id, c.protocol))

/-- Every connection of a diagram rendered as a triple of source
component name, target component name and protocol. -/
def connectionSummary (d : ArchitectureDiagram) :
    List (Option String × Option String × Option String) :=
  summaryOf d.components d.connections

/-
Serialization. save_architecture_endpoint persists a diagram through
pydantic model_dump_json; get_architecture_endpoint reads it back
through ArchitectureDiagram.model_validate_json. The functions below
embed that serialization and validation at the level of JSON trees,
field by field in declaration order; the text rendering and text
parsing in between are done by the external JSON machinery and are
modeled by the Doc type of the store further down.
-/

/-- Serialization of an optional string field: pydantic emits null for
a missing optional value. -/
def optStrJson : Option String → JsonValue
  | none => JsonValue.null
  | some s => JsonValue.str s

/-- Serialization of an optional open property bag. -/
def bagJson : Option (List (String × JsonValue)) → JsonValue
  | none => JsonValue.null
  | some kvs => JsonValue.obj kvs

/-- JSON form of an ArchitectureComponent, fields in declaration order. -/
def componentToJson (c : ArchitectureComponent) : JsonValue :=
  JsonValue.obj
    [("id", JsonValue.str c.id), ("name", JsonValue.str c.name),
     ("type", JsonValue.str c.type), ("technology", optStrJson c.technology),
     ("description", optStrJson c.description), ("properties", bagJson c.properties)]

/-- JSON form of an ArchitectureConnection, fields in declaration order. -/
def connectionToJson (c : ArchitectureConnection) : JsonValue :=
  JsonValue.obj
    [("id", JsonValue.str c.id),
     ("source_component_id", JsonValue.str c.source_component_id),
     ("target_component_id", JsonValue.str c.target_component_id),
     ("protocol", optStrJson c.protocol),
     ("description", optStrJson c.description), ("properties", bagJson c.properties)]

/-- JSON form of an ArchitectureDiagram, fields in declaration order. -/
def diagramToJson (d : ArchitectureDiagram) : JsonValue :=
  JsonValue.obj
    [("diagram_id", JsonValue.str d.diagram_id), ("name", JsonValue.str d.name),
     ("description", optStrJson d.description),
     ("components", JsonValue.arr (d.components.map componentToJson)),
     ("connections", JsonValue.arr (d.connections.map connectionToJson)),
     ("metadata", bagJson d.metadata)]

/-- First binding of a key in a JSON object; a JSON object produced by
the Python side never repeats a key. -/
def getField : List (String × JsonValue) → String → Option JsonValue
  | [], _ => none
  | (k, v) :: rest, key => if k == key then some v else getField rest key

/-- Validation of a required string field: absent or non-string values
are rejected, as pydantic rejects them for a required str field. -/
def requireStr (fields : List (String × JsonValue)) (key : String) : Option String :=
  match getField fields key with
  | some (JsonValue.str s) => some s
  | _ => none

/-- Validation of an Optional str field with default None: an absent
field or null yields none, a string yields it, anything else fails. -/
def readOptStr (fields : List (String × JsonValue)) (key : String) :
    Option (Option String) :=
  match getField fields key with
  | none => some none
  | some JsonValue.null => some none
  | some (JsonValue.str s) => some (some s)
  | some _ => none

/-- Validation of an Optional Dict field with default None. -/
def readBag (fields : List (String × JsonValue)) (key : String) :
    Option (Option (List (String × JsonValue))) :=
  match getField fields key with
  | none => some none
  | some JsonValue.null => some none
  | some (JsonValue.obj kvs) => some (some kvs)
  | some _ => none

/-- Element-wise validation of a JSON array: the list validates only
when every element does. -/
def validateList {α : Type} (f : JsonValue → Option α) : List JsonValue → Option (List α)
  | [] => some []
  | j :: js =>
    match f j, validateList f js with
    | some a, some as => some (a :: as)
    | _, _ => none

/-- Validation of a list field with default empty list: an absent field
yields the default, a JSON array validates element-wise, anything else
fails. -/
def readList {α : Type} (f : JsonValue → Option α)
    (fields : List (String × JsonValue)) (key : String) : Option (List α) :=
  match getField fields key with
  | none => some []
  | some (JsonValue.arr js) => validateList f js
  | some _ => none

/-- Validation of one component object; unknown keys are ignored, as
pydantic ignores extra fields by default. -/
def componentFromJson : JsonValue → Option ArchitectureComponent
  | JsonValue.obj fields => do
    let id ← requireStr fields "id"
    let name ← requireStr fields "name"
    let type ← requireStr fields "type"
    let technology ← readOptStr fields "technology"
    let description ← readOptStr fields "description"
    let properties ← readBag fields "properties"
    pure { id := id, name := name, type := type, technology := technology,
           description := description, properties := properties }
  | _ => none

/-- Validation of one connection object. -/
def connectionFromJson : JsonValue → Option ArchitectureConnection
  | JsonValue.obj fields => do
    let id ← requireStr fields "id"
    let src ← requireStr fields "source_component_id"
    let tgt ← requireStr fields "target_component_id"
    let protocol ← readOptStr fields "protocol"
    let description ← readOptStr fields "description"
    let properties ← readBag fields "properties"
    pure { id := id, source_component_id := src, target_component_id := tgt,
           protocol := protocol, description := description, properties := properties }
  | _ => none

/-- Validation of a whole diagram document, the shape check performed by
ArchitectureDiagram.model_validate_json: required diagram_id and name,
optional description and metadata, element-wise validated component and
connection lists. Connection endpoints are not resolved against the
component list; the shape check is purely field-local. -/
def diagramFromJson : JsonValue → Option ArchitectureDiagram
  | JsonValue.obj fields => do
    let diagram_id ← requireStr fields "diagram_id"
    let name ← requireStr fields "name"
    let description ← readOptStr fields "description"
    let components ← readList componentFromJson fields "components"
    let connections ← readList connectionFromJson fields "connections"
    let metadata ← readBag fields "metadata"
    pure { diagram_id := diagram_id, name := name, description := description,
           components := components, connections := connections, metadata := metadata }
  | _ => none

/-
The diagram store. A stored file is either effectively empty
(whitespace-only content, rejected by the explicit emptiness check in
get_architecture_endpoint), text that the JSON machinery cannot parse,
or text denoting a JSON tree; the Doc type models the outcome of the
external text-to-tree stage on the stored bytes.
-/

/-- Outcome of reading one stored document. -/
inductive Doc : Type where
  | blank : Doc
  | notJson : Doc
  | jsonDoc : JsonValue → Doc

/-- The flat directory saved_architectures, keyed by file name. -/
abbrev Store : Type := String → Option Doc

/-- The store with no documents. -/
def emptyStore : Store := fun _ => none

/-- save_architecture_endpoint: writes the serialized diagram under the
file name diagram_id followed by the json extension, overwriting any
previous document under that name, and reports success with the saved
path. The IO error paths of the source depend on the medium, which the
embedding treats as writable. -/
def saveArchitecture (store : Store) (d : ArchitectureDiagram) : Store × ApiResponse :=
  (fun filename =>
     if filename == d.diagram_id ++ ".json" then some (Doc.jsonDoc (diagramToJson d))
     else store filename,
   { message := "Architecture \x27" ++ d.diagram_id ++ "\x27 saved successfully.",
     data := some (JsonValue.obj
       [("diagram_id", JsonValue.str d.diagram_id),
        ("saved_path", JsonValue.str ("saved_architectures/" ++ d.diagram_id ++ ".json"))]),
     success := true })

/-- Failure kinds of get_architecture_endpoint: the 404 not-found
outcome, and the three 500 corrupt-data outcomes (empty file, content
the JSON machinery cannot parse, content failing the diagram shape
check). -/
inductive GetError : Type where
  | notFound : GetError
  | corruptEmpty : GetError
  | corruptParse : GetError
  | corruptShape : GetError
deriving DecidableEq

/-- get_architecture_endpoint: looks the file up by name, answers 404
when it is absent, then reads and validates it. The endpoint only reads
the store; it never writes. -/
def getArchitecture (store : Store) (architecture_id : String) :
    Except GetError ArchitectureDiagram :=
  match store (architecture_id ++ ".json") with
  | none => Except.error GetError.notFound
  | some Doc.blank => Except.error GetError.corruptEmpty
  | some Doc.notJson => Except.error GetError.corruptParse
  | some (Doc.jsonDoc j) =>
    match diagramFromJson j with
    | some d => Except.ok d
    | none => Except.error GetError.corruptShape

/-- The CorruptData error kind of the spec taxonomy: any failed read of
a document that does exist. -/
def corruptData : GetError → Prop := fun e =>
  e = GetError.corruptEmpty ∨ e = GetError.corruptParse ∨ e = GetError.corruptShape

/-- A store holding a single empty file. -/
def storeWithBlankDoc : Store := fun filename =>
  if filename == "empty_doc.json" then some Doc.blank else none

/-- The dangling connection of the C10 witness diagram: its target
references no component of the diagram. -/
def danglingConn : ArchitectureConnection :=
  { id := "x1", source_component_id := "c1", target_component_id := "ghost" }

/-- A diagram whose single connection has a dangling target endpoint. -/
def danglingDiagram : ArchitectureDiagram :=
  { diagram_id := "dangling_example", name := "Dangling",
    components := [{ id := "c1", name := "Solo", type := "Service" }],
    connections := [danglingConn] }

/-- The structural invariants claimed for generated component and
connection lists: at least one component, duplicate-free component
identifiers, duplicate-free connection identifiers, and every
connection joining two existing, distinct components. -/
def partsWellFormed (comps : List ArchitectureComponent)
    (conns : List ArchitectureConnection) : Prop :=
  comps.length ≠ 0 ∧
  (comps.map (fun c => c.id)).Nodup ∧
  (conns.map (fun c => c.id)).Nodup ∧
  ∀ c ∈ conns,
    c.source_component_id ∈ idsOf comps ∧
    c.target_component_id ∈ idsOf comps ∧
    c.source_component_id ≠ c.target_component_id

/-- The structural invariants of a generated diagram claimed by the
spec. -/
def diagramWellFormed (d : ArchitectureDiagram) : Prop :=
  partsWellFormed d.components d.connections

/-- The backend-tier shape on component and connection lists: exactly
one gateway, exactly one user service and one product service (so
exactly two microservices), and the gateway-sourced connections are
exactly the two service routes tagged HTTPS/REST. -/
def apiTierParts (comps : List ArchitectureComponent)
    (conns : List ArchitectureConnection) : Prop :=
  (comps.filter (fun c => c.name == "API Gateway")).length = 1 ∧
  (comps.filter (fun c => c.name == "User Service")).length = 1 ∧
  (comps.filter (fun c => c.name == "Product Service")).length = 1 ∧
  (comps.filter (fun c => c.type == "Microservice")).length = 2 ∧
  (summaryOf comps conns).filter (fun t => t.1 == some "API Gateway") =
    [(some "API Gateway", some "User Service", some "HTTPS/REST"),
     (some "API Gateway", some "Product Service", some "HTTPS/REST")]

/-- The backend-tier shape claimed for api or backend prompts. -/
def apiTierShape (d : ArchitectureDiagram) : Prop :=
  apiTierParts d.components d.connections

/-- The client-tier shape on a component list: one client component of
each named kind and exactly three client-typed components in total. -/
def clientTierParts (comps : List ArchitectureComponent) : Prop :=
  (comps.filter (fun c => c.name == "Android Client")).length = 1 ∧
  (comps.filter (fun c => c.name == "iOS Client")).length = 1 ∧
  (comps.filter (fun c => c.name == "Web Client")).length = 1 ∧
  (comps.filter (fun c => c.type == "MobileClient" || c.type == "WebClient")).length = 3

/-- The client-tier shape claimed for prompts triggering all three
client rules. -/
def clientTierShape (d : ArchitectureDiagram) : Prop :=
  clientTierParts d.components

/-- The client-to-gateway wiring on component and connection lists:
the gateway-targeted connections are exactly one HTTPS connection per
client, in client creation order. -/
def clientWiringParts (comps : List ArchitectureComponent)
    (conns : List ArchitectureConnection) : Prop :=
  (summaryOf comps conns).filter (fun t => t.2.1 == some "API Gateway") =
    [(some "Android Client", some "API Gateway", some "HTTPS"),
     (some "iOS Client", some "API Gateway", some "HTTPS"),
     (some "Web Client", some "API Gateway", some "HTTPS")]

/-- The client-to-gateway wiring claimed when all three clients and the
gateway exist. -/
def clientGatewayWiring (d : ArchitectureDiagram) : Prop :=
  clientWiringParts d.components d.connections

instance (comps : List ArchitectureComponent) (conns : List ArchitectureConnection) :
    Decidable (partsWellFormed comps conns) := by
  unfold partsWellFormed; infer_instance

instance (d : ArchitectureDiagram) : Decidable (diagramWellFormed d) := by
  unfold diagramWellFormed; infer_instance

instance (comps : List ArchitectureComponent) (conns : List ArchitectureConnection) :
    Decidable (apiTierParts comps conns) := by
  unfold apiTierParts; infer_instance

instance (d : ArchitectureDiagram) : Decidable (apiTierShape d) := by
  unfold apiTierShape; infer_instance

instance (comps : List ArchitectureComponent) : Decidable (clientTierParts comps) := by
  unfold clientTierParts; infer_instance

instance (d : ArchitectureDiagram) : Decidable (clientTierShape d) := by
  unfold clientTierShape; infer_instance

instance (comps : List ArchitectureComponent) (conns : List ArchitectureConnection) :
    Decidable (clientWiringParts comps conns) := by
  unfold clientWiringParts; infer_instance

instance (d : ArchitectureDiagram) : Decidable (clientGatewayWiring d) := by
  unfold clientGatewayWiring; infer_instance

/-- Serializing one component and validating it back returns the
component unchanged. -/
theorem componentFromJson_toJson (c : ArchitectureComponent) :
    componentFromJson (componentToJson c) = some c := by
  obtain ⟨id, name, type, tech, descr, props⟩ := c
  cases tech <;> cases descr <;> cases props <;> rfl

/-- Serializing one connection and validating it back returns the
connection unchanged. -/
theorem connectionFromJson_toJson (c : ArchitectureConnection) :
    connectionFromJson (connectionToJson c) = some c := by
  obtain ⟨id, src, tgt, proto, descr, props⟩ := c
  cases proto <;> cases descr <;> cases props <;> rfl

/-- Element-wise validation inverts element-wise serialization. -/
theorem validateList_map {α : Type} (f : JsonValue → Option α) (g : α → JsonValue)
    (h : ∀ a, f (g a) = some a) (as : List α) :
    validateList f (as.map g) = some as := by
  induction as with
  | nil => rfl
  | cons a as ih => simp [List.map, validateList, h, ih]

/-- Serializing a diagram and validating it back returns the diagram
unchanged: the shape check accepts exactly the serialized fields. -/
theorem diagramFromJson_toJson (d : ArchitectureDiagram) :
    diagramFromJson (diagramToJson d) = some d := by
  obtain ⟨did, name, descr, comps, conns, md⟩ := d
  cases descr <;> cases md <;>
    simp [diagramFromJson, diagramToJson, requireStr, readOptStr, readBag, readList,
          getField, optStrJson, bagJson,
          validateList_map componentFromJson componentToJson componentFromJson_toJson,
          validateList_map connectionFromJson connectionToJson connectionFromJson_toJson]

/-- Reading back a freshly saved diagram succeeds and returns it
structurally unchanged. -/
theorem getArchitecture_after_save (store : Store) (d : ArchitectureDiagram) :
    getArchitecture (saveArchitecture store d).1 d.diagram_id = Except.ok d := by
  simp [getArchitecture, saveArchitecture, diagramFromJson_toJson]

/-- C1: for every diagram d accepted by save (every value of the
ArchitectureDiagram model) and every prior store state, saving d and
then getting d by its diagram_id returns a diagram structurally equal
to d: same diagram_id, name, description, components in order,
connections in order, and metadata. -/
theorem claim_C1_roundtrip (store : Store) (d : ArchitectureDiagram) :
    getArchitecture (saveArchitecture store d).1 d.diagram_id = Except.ok d :=
  getArchitecture_after_save store d

/-- C8: getting an identifier under which no document exists fails with
the not-found kind and with nothing else; getArchitecture only reads
the store it is handed, so a failed get leaves the store unchanged by
construction. -/
theorem claim_C8_get_missing (store : Store) (architecture_id : String)
    (h : store (architecture_id ++ ".json") = none) :
    getArchitecture store architecture_id = Except.error GetError.notFound := by
  simp [getArchitecture, h]

/-- C8 witness: the empty store has no document under the looked-up
name, and the get fails with the not-found kind. -/
theorem claim_C8_get_missing_witness :
    getArchitecture emptyStore "arch_id_does_not_exist_12345" =
      Except.error GetError.notFound :=
  claim_C8_get_missing emptyStore "arch_id_does_not_exist_12345" rfl

/-- C9: when a document exists under the key but is empty, is not
well-formed JSON, or fails the diagram shape check, get fails with one
of the corrupt-data kinds, never with the not-found kind, so the caller
can tell a missing resource from an unreadable one. -/
theorem claim_C9_get_corrupt (store : Store) (architecture_id : String) (doc : Doc)
    (h : store (architecture_id ++ ".json") = some doc)
    (hbad : doc = Doc.blank ∨ doc = Doc.notJson ∨
      ∃ j, doc = Doc.jsonDoc j ∧ diagramFromJson j = none) :
    ∃ e, getArchitecture store architecture_id = Except.error e ∧
      corruptData e ∧ e ≠ GetError.notFound := by
  rcases hbad with h1 | h1 | ⟨j, h1, h2⟩ <;> subst h1
  · exact ⟨GetError.corruptEmpty, by simp [getArchitecture, h], Or.inl rfl, by decide⟩
  · exact ⟨GetError.corruptParse, by simp [getArchitecture, h], Or.inr (Or.inl rfl), by decide⟩
  · exact ⟨GetError.corruptShape, by simp [getArchitecture, h, h2],
      Or.inr (Or.inr rfl), by decide⟩

/-- C9 witness: getting the key backed by an empty file fails with a
corrupt-data kind distinct from not-found. -/
theorem claim_C9_get_corrupt_witness :
    ∃ e, getArchitecture storeWithBlankDoc "empty_doc" = Except.error e ∧
      corruptData e ∧ e ≠ GetError.notFound :=
  claim_C9_get_corrupt storeWithBlankDoc "empty_doc" Doc.blank rfl (Or.inl rfl)

/-- C10: a diagram with a connection endpoint matching no component id
is saved successfully (no referential check at write time) and the
subsequent get returns it unchanged: the shape check is field-local and
never rejects dangling endpoints. -/
theorem claim_C10_dangling_accepted (store : Store) (d : ArchitectureDiagram)
    (_h : ∃ c, c ∈ d.connections ∧
      (c.source_component_id ∉ componentIds d ∨ c.target_component_id ∉ componentIds d)) :
    (saveArchitecture store d).2.success = true ∧
      getArchitecture (saveArchitecture store d).1 d.diagram_id = Except.ok d :=
  ⟨rfl, getArchitecture_after_save store d⟩

/-- C10 witness: the concrete diagram with a dangling target endpoint
saves and reads back unchanged. -/
theorem claim_C10_dangling_accepted_witness :
    (saveArchitecture emptyStore danglingDiagram).2.success = true ∧
      getArchitecture (saveArchitecture emptyStore danglingDiagram).1
        danglingDiagram.diagram_id = Except.ok danglingDiagram :=
  claim_C10_dangling_accepted emptyStore danglingDiagram
    ⟨danglingConn, by simp [danglingDiagram], Or.inr (by decide)⟩

/-- The component list of a synthesized diagram is the first part of
the rule cascade output at the five trigger results. -/
theorem synthesize_components (prompt : String) :
    (synthesize prompt).components =
      (buildParts (promptHas prompt "android") (promptHas prompt "ios")
        (promptHas prompt "web" || promptHas prompt "browser")
        (promptHas prompt "api" || promptHas prompt "backend")
        (promptHas prompt "database" || promptHas prompt "storage")).1 :=
  rfl

/-- The connection list of a synthesized diagram is the second part of
the rule cascade output at the five trigger results. -/
theorem synthesize_connections (prompt : String) :
    (synthesize prompt).connections =
      (buildParts (promptHas prompt "android") (promptHas prompt "ios")
        (promptHas prompt "web" || promptHas prompt "browser")
        (promptHas prompt "api" || promptHas prompt "backend")
        (promptHas prompt "database" || promptHas prompt "storage")).2 :=
  rfl

/-- The rule cascade output satisfies the structural invariants for
every combination of trigger results. -/
theorem buildParts_wellFormed (a i w api db : Bool) :
    partsWellFormed (buildParts a i w api db).1 (buildParts a i w api db).2 := by
  cases a <;> cases i <;> cases w <;> cases api <;> cases db <;> decide

/-- C2: synthesize is a total function, and for every input string,
including the empty one, it returns a diagram with at least one
component in which every connection joins two existing components, no
connection is a self-loop, and no identifier repeats among the
components or among the connections. -/
theorem claim_C2_invariants (prompt : String) : diagramWellFormed (synthesize prompt) :=
  buildParts_wellFormed _ _ _ _ _

/-- C3: the concrete scenario prompt produces exactly the five named
components, in generation order, and exactly the five claimed
connections: gateway to user service, gateway to product service,
android client to gateway, user service to database and product
service to database. -/
theorem claim_C3_concrete_scenario :
    ((synthesize "Create a simple android app with a backend api and a database.").components.map
        (fun c => c.name) =
      ["Android Client", "API Gateway", "User Service", "Product Service", "Primary Database"]) ∧
    connectionSummary
        (synthesize "Create a simple android app with a backend api and a database.") =
      [(some "API Gateway", some "User Service", some "HTTPS/REST"),
       (some "API Gateway", some "Product Service", some "HTTPS/REST"),
       (some "Android Client", some "API Gateway", some "HTTPS"),
       (some "User Service", some "Primary Database", some "TCP/IP (specific to DB)"),
       (some "Product Service", some "Primary Database", some "TCP/IP (specific to DB)")] := by
  decide

/-- The backend-tier shape holds whenever the api-or-backend trigger
fired, whatever the other triggers did. -/
theorem buildParts_apiTier (a i w db : Bool) :
    apiTierParts (buildParts a i w true db).1 (buildParts a i w true db).2 := by
  cases a <;> cases i <;> cases w <;> cases db <;> decide

/-- C4: every prompt containing api or backend yields exactly one API
Gateway, exactly one User Service and one Product Service, always
together, and exactly two gateway-to-service connections tagged
HTTPS/REST, however many times the trigger words occur. -/
theorem claim_C4_backend_tier (prompt : String)
    (h : promptHas prompt "api" = true ∨
      promptHas prompt "backend" = true) :
    apiTierShape (synthesize prompt) := by
  have hflag : (promptHas prompt "api" ||
      promptHas prompt "backend") = true := by
    rcases h with h | h <;> simp [h]
  unfold apiTierShape
  rw [synthesize_components, synthesize_connections, hflag]
  exact buildParts_apiTier _ _ _ _

/-- C4 witness: the one-word prompt api. -/
theorem claim_C4_backend_tier_witness : apiTierShape (synthesize "api") :=
  claim_C4_backend_tier "api" (Or.inl (by decide))

/-- The database-only cascade output: one database component, nothing
else, and no connections; the component created by the database rule
keeps the fallback from firing. -/
theorem buildParts_database_only :
    ((buildParts false false false false true).1.map (fun c => c.name) =
      ["Primary Database"]) ∧
    (buildParts false false false false true).2.length = 0 := by
  decide

/-- C5 counterexample: the prompt database matches the database
trigger and none of the client or backend triggers, yet the synthesized
diagram holds no fallback component of name Default Application Core
or type Monolith and zero connections, where the claim demands the
fallback component wired to the database by exactly one connection. -/
theorem claim_C5_counterexample :
    promptHas "database" "database" = true ∧
    promptHas "database" "android" = false ∧
    promptHas "database" "ios" = false ∧
    promptHas "database" "web" = false ∧
    promptHas "database" "browser" = false ∧
    promptHas "database" "api" = false ∧
    promptHas "database" "backend" = false ∧
    ((synthesize "database").components.filter
        (fun c => c.name == "Default Application Core")).length = 0 ∧
    ((synthesize "database").components.filter (fun c => c.type == "Monolith")).length = 0 ∧
    ((synthesize "database").components.map (fun c => c.name) = ["Primary Database"]) ∧
    (synthesize "database").connections.length = 0 := by
  decide

/-- C5 as amended: for every prompt matching the database trigger but
none of the client or backend triggers, synthesize returns a diagram
whose only component is the database component, with no fallback
component and zero connections; the database rule makes the component
list non-empty, so the fallback branch, the only place that would wire
the fallback component, never fires. -/
theorem claim_C5_amended_database_only (prompt : String)
    (hdb : promptHas prompt "database" = true ∨
      promptHas prompt "storage" = true)
    (h1 : promptHas prompt "android" = false)
    (h2 : promptHas prompt "ios" = false)
    (h3 : promptHas prompt "web" = false)
    (h4 : promptHas prompt "browser" = false)
    (h5 : promptHas prompt "api" = false)
    (h6 : promptHas prompt "backend" = false) :
    (synthesize prompt).components.map (fun c => c.name) = ["Primary Database"] ∧
      (synthesize prompt).connections.length = 0 := by
  have hdbf : (promptHas prompt "database" ||
      promptHas prompt "storage") = true := by
    rcases hdb with h | h <;> simp [h]
  rw [synthesize_components, synthesize_connections, h1, h2, h3, h4, h5, h6, hdbf]
  simp only [Bool.or_self]
  exact buildParts_database_only

/-- C5 amended witness: the one-word prompt database. -/
theorem claim_C5_amended_database_only_witness :
    (synthesize "database").components.map (fun c => c.name) = ["Primary Database"] ∧
      (synthesize "database").connections.length = 0 :=
  claim_C5_amended_database_only "database" (Or.inl (by decide)) (by decide) (by decide)
    (by decide) (by decide) (by decide) (by decide)

/-- The all-triggers-false cascade output is the single fallback
component and no connections. -/
theorem buildParts_default_core :
    ((buildParts false false false false false).1.map (fun c => c.name) =
      ["Default Application Core"]) ∧
    (buildParts false false false false false).2.length = 0 := by
  decide

/-- C6: every prompt containing none of the trigger keywords yields a
diagram with exactly one component, named Default Application Core,
and zero connections. -/
theorem claim_C6_fallback (prompt : String)
    (h1 : promptHas prompt "android" = false)
    (h2 : promptHas prompt "ios" = false)
    (h3 : promptHas prompt "web" = false)
    (h4 : promptHas prompt "browser" = false)
    (h5 : promptHas prompt "api" = false)
    (h6 : promptHas prompt "backend" = false)
    (h7 : promptHas prompt "database" = false)
    (h8 : promptHas prompt "storage" = false) :
    (synthesize prompt).components.map (fun c => c.name) = ["Default Application Core"] ∧
      (synthesize prompt).connections.length = 0 := by
  rw [synthesize_components, synthesize_connections, h1, h2, h3, h4, h5, h6, h7, h8]
  simp only [Bool.or_self]
  exact buildParts_default_core

/-- C6 witness: the empty prompt. -/
theorem claim_C6_fallback_witness :
    (synthesize "").components.map (fun c => c.name) = ["Default Application Core"] ∧
      (synthesize "").connections.length = 0 :=
  claim_C6_fallback "" (by decide) (by decide) (by decide) (by decide) (by decide)
    (by decide) (by decide) (by decide)

/-- The client-tier shape holds whenever all three client triggers
fired, whatever the backend and database triggers did. -/
theorem buildParts_clientTier (api db : Bool) :
    clientTierParts (buildParts true true true api db).1 := by
  cases api <;> cases db <;> decide

/-- The client-to-gateway wiring holds whenever all three client
triggers and the backend trigger fired. -/
theorem buildParts_clientWiring (db : Bool) :
    clientWiringParts (buildParts true true true true db).1
      (buildParts true true true true db).2 := by
  cases db <;> decide

/-- C7: every prompt containing android, ios and web yields exactly
three client components, one of each named kind, because the three
client trigger tests are independent; and when the prompt also
contains api, exactly three client-to-gateway connections tagged
HTTPS, one per client. -/
theorem claim_C7_three_clients (prompt : String)
    (hA : promptHas prompt "android" = true)
    (hI : promptHas prompt "ios" = true)
    (hW : promptHas prompt "web" = true) :
    clientTierShape (synthesize prompt) ∧
      (promptHas prompt "api" = true → clientGatewayWiring (synthesize prompt)) := by
  have hw : (promptHas prompt "web" ||
      promptHas prompt "browser") = true := by simp [hW]
  constructor
  · unfold clientTierShape
    rw [synthesize_components, hA, hI, hw]
    exact buildParts_clientTier _ _
  · intro hapi
    have hflag : (promptHas prompt "api" ||
        promptHas prompt "backend") = true := by simp [hapi]
    unfold clientGatewayWiring
    rw [synthesize_components, synthesize_connections, hA, hI, hw, hflag]
    exact buildParts_clientWiring _

/-- C7 witness: a prompt naming all three clients and the api trigger. -/
theorem claim_C7_three_clients_witness :
    clientTierShape (synthesize "android ios web api") ∧
      (promptHas "android ios web api" "api" = true →
        clientGatewayWiring (synthesize "android ios web api")) :=
  claim_C7_three_clients "android ios web api" (by decide) (by decide) (by decide)

end ArchAgent
